import Mathlib

/-!
Formal model of the email auto-reply pipeline (producer `email_pull.py`,
consumer `process_response.py`).  Redis is modelled as a `Cache` value
(the shared replied set plus the individually keyed replied entries),
MySQL as a list of `EmailRow`s, and the per-task retry loop of the consumer as
a pure function over a list of per-attempt environments describing the
outcomes of the external calls (completion service, SMTP relay, DB commit).
-/

namespace EmailBot

/-- MAX_RETRIES from process_response.py line 38. -/
def MAX_RETRIES : Nat := 3

/-! ### Python string primitives

Python slices, `strip()` and `lower()` act on character sequences; they are
embedded structurally over the character list of the string. -/

/-- Python `s[:n]` (a character prefix). -/
def str_take (s : String) (n : Nat) : String := String.mk (s.data.take n)

/-- Python `s.strip()`: whitespace removed from both ends. -/
def str_trim (s : String) : String :=
  String.mk (((s.data.dropWhile Char.isWhitespace).reverse.dropWhile
      Char.isWhitespace).reverse)

/-- Python `s.lower()`. -/
def str_lower (s : String) : String := String.mk (s.data.map Char.toLower)

/-! ## Redis replied cache (process_response.py lines 84-104, email_pull.py lines 64-72)

A `Cache` holds the members of the shared Redis set `replied_emails_set`
and the set of uuids whose individually keyed entry `replied:{uuid}`
exists.  TTLs only delete representations; deletion is modelled by the
`expire_replied_set` / `expire_replied_key` operations. -/

structure Cache where
  replied_set : List String
  replied_keys : List String
deriving DecidableEq

/-- `add_to_replied_cache` (process_response.py lines 84-94): `sadd` into the
shared set and `setex` the individual key.  Both are idempotent adds. -/
def add_to_replied_cache (c : Cache) (u : String) : Cache :=
  { replied_set := if c.replied_set.contains u then c.replied_set else c.replied_set ++ [u],
    replied_keys := if c.replied_keys.contains u then c.replied_keys else c.replied_keys ++ [u] }

/-- `is_already_replied` (process_response.py lines 96-104): `sismember` on the
shared set first, then `exists` on the individual key. -/
def is_already_replied (c : Cache) (u : String) : Bool :=
  if c.replied_set.contains u then true
  else c.replied_keys.contains u

/-- `check_if_already_replied` (email_pull.py lines 64-72), the producer-side copy
of the same dual check. -/
def check_if_already_replied (c : Cache) (u : String) : Bool :=
  if c.replied_set.contains u then true
  else c.replied_keys.contains u

/-- Wholesale expiry of the shared set representation (when the TTL of the set key
elapses it deletes every member at once). -/
def expire_replied_set (c : Cache) : Cache :=
  { c with replied_set := [] }

/-- Expiry of the individually keyed entry for one uuid. -/
def expire_replied_key (c : Cache) (u : String) : Cache :=
  { c with replied_keys := c.replied_keys.filter (fun k => k ≠ u) }

/-- Spec-side predicate for the replied check, written from the words of the spec:
the identity is a member of the shared replied set or its individually keyed
replied entry exists. -/
def replied_spec (c : Cache) (u : String) : Prop :=
  u ∈ c.replied_set ∨ u ∈ c.replied_keys

lemma add_keys_mem (c : Cache) (u : String) :
    u ∈ (add_to_replied_cache c u).replied_keys := by
  by_cases h : u ∈ c.replied_keys <;> simp [add_to_replied_cache, h]

lemma add_set_mem (c : Cache) (u : String) :
    u ∈ (add_to_replied_cache c u).replied_set := by
  by_cases h : u ∈ c.replied_set <;> simp [add_to_replied_cache, h]

/-- C8: after an identity is added to the replied cache, the replied check
returns true whenever either representation is present: wiping the shared-set
membership alone leaves the check true via the individually keyed entry, and
removing the individual key alone leaves the check true via the set
membership. -/
theorem dual_cache_independence (c : Cache) (u : String) :
    is_already_replied (expire_replied_set (add_to_replied_cache c u)) u = true ∧
    is_already_replied (expire_replied_key (add_to_replied_cache c u) u) u = true := by
  constructor
  · have h := add_keys_mem c u
    simp [is_already_replied, expire_replied_set, h]
  · have h := add_set_mem c u
    simp [is_already_replied, expire_replied_key, h]

/-- C9: the producer replied check and the consumer replied check are
extensionally equal, and both return true exactly when the identity is in the
shared replied set or its individually keyed entry exists. -/
theorem replied_checks_equivalent (c : Cache) (u : String) :
    check_if_already_replied c u = is_already_replied c u ∧
    (check_if_already_replied c u = true ↔ replied_spec c u) ∧
    (is_already_replied c u = true ↔ replied_spec c u) := by
  refine ⟨rfl, ?_, ?_⟩ <;>
  · by_cases hs : u ∈ c.replied_set <;>
      simp [check_if_already_replied, is_already_replied, replied_spec, hs]

/-- Concrete instance of the equivalence of the two replied checks. -/
theorem replied_checks_equivalent_witness :
    check_if_already_replied ⟨["a"], []⟩ "a" = is_already_replied ⟨["a"], []⟩ "a" :=
  (replied_checks_equivalent ⟨["a"], []⟩ "a").1

/-! ## Message identity resolver (email_pull.py lines 56-62, 240-253)

`uuid.uuid5(NAMESPACE_DNS, s)` is a fixed digest of the string `s`; it is
modelled as an explicit function argument `uuid5 : String → String`, since
every claim about identity depends only on the string handed to the digest.
`str(uuid.uuid4())` draws a fresh random token; each draw is passed in
explicitly as `fresh_uuid4`. -/

/-- The string handed to the digest in `generate_email_uuid`
(email_pull.py lines 58-61): Python truthiness of `message_id` is
non-emptiness, and `content[:100]` / `content[:200]` are character
prefixes. -/
def uuid_source (message_id from_email content : String) : String :=
  if message_id ≠ "" then
    message_id ++ ":" ++ from_email ++ ":" ++ str_take content 100
  else
    from_email ++ ":" ++ str_take content 200

/-- `generate_email_uuid` (email_pull.py lines 56-62). -/
def generate_email_uuid (uuid5 : String → String)
    (message_id from_email content : String) : String :=
  uuid5 (uuid_source message_id from_email content)

/-- email_pull.py line 248: `message_id = msg.get("Message-ID") or str(uuid.uuid4())`.
The header is `none` when absent; Python `or` also falls through on an empty
header string. -/
def resolve_message_id (header : Option String) (fresh_uuid4 : String) : String :=
  match header with
  | some h => if h = "" then fresh_uuid4 else h
  | none => fresh_uuid4

/-- The identity the producer assigns to a fetched message
(email_pull.py lines 248-253): the header Message-ID, with a fresh random
uuid4 substituted when the header is missing, fed to `generate_email_uuid`. -/
def producer_identity (uuid5 : String → String) (header : Option String)
    (fresh_uuid4 from_email content : String) : String :=
  generate_email_uuid uuid5 (resolve_message_id header fresh_uuid4) from_email content

set_option maxRecDepth 8000 in
/-- C2: the claim fails on the code.  When the Message-ID header is absent,
`fetch_recent_emails` substitutes a fresh random uuid4 before hashing, so two
fetches of the byte-identical message draw different random tokens and hash
different source strings: for any injective digest the two identities differ.
(`generate_email_uuid` has a dedicated deterministic branch for a missing
message id, but line 248 makes it unreachable from the producer.) -/
theorem missing_message_id_identity_unstable (uuid5 : String → String)
    (hinj : Function.Injective uuid5) :
    producer_identity uuid5 none "11111111-aaaa" "a@x.com" "hello" ≠
    producer_identity uuid5 none "22222222-bbbb" "a@x.com" "hello" := by
  intro h
  have hs := hinj h
  have hne : uuid_source (resolve_message_id none "11111111-aaaa") "a@x.com" "hello" ≠
      uuid_source (resolve_message_id none "22222222-bbbb") "a@x.com" "hello" := by
    decide
  exact hne hs

/-- The C2 failure at a concrete digest (the identity function is injective):
the same absent-header message fetched twice yields two different
identities. -/
theorem missing_message_id_identity_unstable_witness :
    producer_identity (fun s => s) none "11111111-aaaa" "a@x.com" "hello" ≠
    producer_identity (fun s => s) none "22222222-bbbb" "a@x.com" "hello" :=
  missing_message_id_identity_unstable (fun s => s) Function.injective_id

/-! ## Durable record store (MySQL `emails` table) -/

/-- One row of the `emails` table, with the columns the claims mention.
The reply-metadata columns written by `save_ai_response_to_email`
(`ai_user_text`, `ai_response_text`, token counters, timestamps, ...) are
elided: no claim depends on their values, only on `is_processed`. -/
structure EmailRow where
  uuid : String
  message_id : String
  sender_uuid : String
  from_email : String
  to_email : String
  subject : String
  content : String
  is_processed : Nat
  has_attachment : Bool
  attachment_info : Option String
deriving DecidableEq

/-- Number of rows matched by the UPDATE of `save_ai_response_to_email`
(process_response.py lines 131-149): its WHERE clause is `uuid = %s` only —
there is no condition on `is_processed`. -/
def save_rows_affected (db : List EmailRow) (u : String) : Nat :=
  (db.filter (fun r => r.uuid == u)).length

/-- Effect of the UPDATE of `save_ai_response_to_email` on the table: every
row whose uuid matches gets `is_processed = 1` (and its reply metadata
overwritten), whatever its current state. -/
def apply_save (db : List EmailRow) (u : String) : List EmailRow :=
  db.map (fun r => if r.uuid == u then { r with is_processed := 1 } else r)

/-- A row already in state Processed. -/
def processedRow : EmailRow :=
  { uuid := "u1", message_id := "m1", sender_uuid := "s0", from_email := "a@x.com",
    to_email := "jesse0526@officalbusiness.com", subject := "s",
    content := "hello", is_processed := 1, has_attachment := false,
    attachment_info := none }

/-- A row in state Pending. -/
def pendingRow : EmailRow :=
  { processedRow with is_processed := 0 }

/-- C1 fails on the code: the UPDATE marking a record Processed is keyed by
uuid alone, with no compare-and-set on the current state.  Applied to a
record already Processed it matches one row, not zero; and of two racing
Pending→Processed updates for the same identity the second still matches one
row (it is not a no-op), so it is not the case that exactly one of N
succeeds. -/
theorem save_update_not_conditional_cex :
    save_rows_affected [processedRow] "u1" = 1 ∧
    save_rows_affected [processedRow] "u1" ≠ 0 ∧
    save_rows_affected (apply_save [pendingRow] "u1") "u1" = 1 := by
  decide

/-- C1 amended: the durable update is unconditional on state — it matches
every row with the given uuid whatever its `is_processed` value (at least one
row whenever such a row exists, also when that row is already Processed), a
second racing update matches exactly as many rows as the first (the loser is
not a zero-row no-op), and every matching row ends Processed. -/
lemma apply_save_marks (db : List EmailRow) (u : String) :
    ∀ q ∈ apply_save db u, q.uuid = u → q.is_processed = 1 := by
  intro q hq hqu
  rcases List.mem_map.mp hq with ⟨a, _, hfa⟩
  by_cases ha : a.uuid = u
  · simp [ha] at hfa
    simp [← hfa]
  · simp [ha] at hfa
    exact absurd (hfa ▸ hqu) ha

lemma apply_save_rows (db : List EmailRow) (u : String) :
    save_rows_affected (apply_save db u) u = save_rows_affected db u := by
  unfold save_rows_affected apply_save
  induction db with
  | nil => simp
  | cons a t ih =>
      simp only [List.map_cons, List.filter_cons]
      by_cases ha : a.uuid = u
      · simp [ha]
        simpa using ih
      · simp [ha]
        simpa using ih

theorem save_update_unconditional (db : List EmailRow) (u : String)
    (r : EmailRow) (hmem : r ∈ db) (hu : r.uuid = u) :
    1 ≤ save_rows_affected db u ∧
    save_rows_affected (apply_save db u) u = save_rows_affected db u ∧
    (∀ q ∈ apply_save db u, q.uuid = u → q.is_processed = 1) := by
  refine ⟨?_, apply_save_rows db u, apply_save_marks db u⟩
  have hmf : r ∈ db.filter (fun r => r.uuid == u) := by
    simp [List.mem_filter, hmem, hu]
  have hp : 0 < (db.filter (fun r => r.uuid == u)).length :=
    List.length_pos.mpr (fun hnil => by simp [hnil] at hmf)
  simpa [save_rows_affected] using hp

/-- Concrete instance of the amended C1: a table holding the already-Processed
row is still matched by the update. -/
theorem save_update_unconditional_witness :
    1 ≤ save_rows_affected [processedRow] "u1" :=
  (save_update_unconditional [processedRow] "u1" processedRow (by decide)
    (by decide)).1

/-! ## Ingestion producer (email_pull.py `fetch_recent_emails`, lines 240-305)

Per-message handling after the message has been fetched and decoded: resolve
the identity, consult the replied cache, then the store lookup
`WHERE message_id = %s OR uuid = %s`, and dispatch on the three cases.  The
state carries the `emails` table, the `email_senders` table (address to
sender_uuid) and the Redis task queue. -/

structure ProducerState where
  db : List EmailRow
  senders : List (String × String)
  queue : List String
deriving DecidableEq

/-- A fetched and decoded inbound message, as seen at email_pull.py
lines 245-250 (`to_email` is the imap user of the account). -/
structure InboundMsg where
  header_message_id : Option String
  from_email : String
  to_email : String
  subject : String
  content : String
  has_attachment : Bool
deriving DecidableEq

/-- The lookup `SELECT uuid, is_processed FROM emails WHERE message_id = %s
OR uuid = %s` (email_pull.py line 261), returning the first matching row. -/
def find_email_row (db : List EmailRow) (mid u : String) : Option EmailRow :=
  db.find? (fun r => r.message_id == mid || r.uuid == u)

/-- `get_or_create_sender_uuid` (email_pull.py lines 74-89): return the
existing sender uuid, or insert a new sender row with a fresh uuid4 (passed
in as `fresh_sender_uuid`).  Returns the uuid and the updated table. -/
def get_or_create_sender_uuid (senders : List (String × String))
    (from_email fresh_sender_uuid : String) : String × List (String × String) :=
  match senders.find? (fun p => p.1 == from_email) with
  | some p => (p.2, senders)
  | none => (fresh_sender_uuid, senders ++ [(from_email, fresh_sender_uuid)])

/-- The row inserted for a previously unseen message (email_pull.py
lines 283-297).  `attachment_info` is modelled as absent; no claim depends on
the attachment columns. -/
def inserted_row (m : InboundMsg) (mid u sender_uuid : String) : EmailRow :=
  { uuid := u, message_id := mid, sender_uuid := sender_uuid, from_email := m.from_email,
    to_email := m.to_email, subject := m.subject, content := m.content,
    is_processed := 0, has_attachment := m.has_attachment,
    attachment_info := none }

/-- Per-message body of `fetch_recent_emails` (email_pull.py lines 240-303):
resolve identity (with a fresh uuid4 substituted for a missing Message-ID),
skip on the replied-cache hit, otherwise branch on the store lookup.
`sender_uuid` is threaded from `get_or_create_sender_uuid` into the insert. -/
def producer_step (uuid5 : String → String) (cache : Cache)
    (st : ProducerState) (m : InboundMsg)
    (fresh_uuid4 fresh_sender_uuid : String) : ProducerState :=
  let mid := resolve_message_id m.header_message_id fresh_uuid4
  let u := generate_email_uuid uuid5 mid m.from_email m.content
  if check_if_already_replied cache u then st
  else
    match find_email_row st.db mid u with
    | some row =>
        if row.is_processed == 0 then { st with queue := st.queue ++ [row.uuid] }
        else st
    | none =>
        let sc := get_or_create_sender_uuid st.senders m.from_email fresh_sender_uuid
        { db := st.db ++ [inserted_row m mid u sc.1],
          senders := sc.2,
          queue := st.queue ++ [u] }

/-- C7: for a candidate message not skipped by the dedup cache, with
`mid`/`u` the resolved message id and identity: if a record matching the
identity or the raw message id exists with state Pending, the producer
enqueues the identity of that record and touches neither the `emails` table nor
the senders table; if such a record exists with state Processed, there is no
side effect at all; if no record exists, the producer resolves-or-creates the
sender profile, inserts exactly one new Pending record carrying the identity,
and enqueues the identity. -/
theorem producer_dispatch_cases (uuid5 : String → String) (cache : Cache)
    (st : ProducerState) (m : InboundMsg) (r4 rs mid u : String)
    (hmid : mid = resolve_message_id m.header_message_id r4)
    (hu : u = generate_email_uuid uuid5 mid m.from_email m.content)
    (hc : check_if_already_replied cache u = false) :
    (∀ row, find_email_row st.db mid u = some row → row.is_processed = 0 →
        producer_step uuid5 cache st m r4 rs =
          { st with queue := st.queue ++ [row.uuid] }) ∧
    (∀ row, find_email_row st.db mid u = some row → row.is_processed ≠ 0 →
        producer_step uuid5 cache st m r4 rs = st) ∧
    (find_email_row st.db mid u = none →
        producer_step uuid5 cache st m r4 rs =
          { db := st.db ++
              [inserted_row m mid u (get_or_create_sender_uuid st.senders m.from_email rs).1],
            senders := (get_or_create_sender_uuid st.senders m.from_email rs).2,
            queue := st.queue ++ [u] } ∧
        (inserted_row m mid u (get_or_create_sender_uuid st.senders m.from_email rs).1).is_processed = 0 ∧
        (inserted_row m mid u (get_or_create_sender_uuid st.senders m.from_email rs).1).uuid = u) := by
  subst hmid hu
  refine ⟨?_, ?_, ?_⟩
  · intro row hfind h0
    simp [producer_step, hc, hfind, h0]
  · intro row hfind h0
    simp [producer_step, hc, hfind, h0]
  · intro hfind
    exact ⟨by simp [producer_step, hc, hfind], rfl, rfl⟩

/-- A fresh message concretely dispatched by the producer: the record is
inserted Pending and its identity enqueued. -/
theorem producer_dispatch_cases_witness :
    producer_step (fun s => s) ⟨[], []⟩ ⟨[], [], []⟩
        ⟨some "m1", "a@x.com", "me@y.com", "s", "hello", false⟩ "r4" "s1" =
      { db := [inserted_row ⟨some "m1", "a@x.com", "me@y.com", "s", "hello", false⟩
                 "m1" (uuid_source "m1" "a@x.com" "hello") "s1"],
        senders := [("a@x.com", "s1")],
        queue := [uuid_source "m1" "a@x.com" "hello"] } :=
  ((producer_dispatch_cases (fun s => s) ⟨[], []⟩ ⟨[], [], []⟩
      ⟨some "m1", "a@x.com", "me@y.com", "s", "hello", false⟩ "r4" "s1"
      "m1" (uuid_source "m1" "a@x.com" "hello") (by decide) rfl rfl).2.2 rfl).1

/-! ## Reply consumer (process_response.py)

The external effects of one task are modelled explicitly: the completion
service call, the SMTP relay and the DB commit can each succeed or fail, and
one `AttemptEnv` value fixes their outcomes for one loop iteration of
`process_with_retry_uuid`.  The events a run emits record the externally
visible actions in order. -/

/-- Pipeline configuration: `ENABLE_EMAIL_CLEANING` (process_response.py
line 53) and the quoted-reply cleaning stage.  The regex pipeline of
process_response.py lines 219-292 (first matching separator wins, quote and
header lines dropped, blank runs collapsed) is abstracted as the function
`clean`; every claim depends only on whether its output is blank. -/
structure Config where
  enable_email_cleaning : Bool
  clean : String → String

/-- One SMTP account (process_response.py lines 180-201). -/
structure SmtpCfg where
  smtp_host : String
  smtp_port : Nat
  smtp_user : String
  smtp_pass : String
deriving DecidableEq

/-- `to_email.strip().lower()` (process_response.py line 403). -/
def normalize_addr (s : String) : String := str_lower (str_trim s)

/-- `SMTP_ACCOUNTS.get(key)` over the loaded account map, modelled as an
association list. -/
def lookup_smtp (accounts : List (String × SmtpCfg)) (k : String) : Option SmtpCfg :=
  (accounts.find? (fun p => p.1 == k)).map (fun p => p.2)

/-- The hard-coded fallback key of process_response.py line 404. -/
def FALLBACK_SMTP_KEY : String := "jesse0526@officalbusiness.com"

/-- The `email_data` dict built by `process_email_by_uuid`
(process_response.py lines 409-418). -/
structure EmailData where
  from_email : String
  to_email : String
  content : String
  subject : String
  email_uuid : String
  message_id : String
  has_attachment : Bool
  attachment_info : Option String
deriving DecidableEq

def email_data_of_row (row : EmailRow) : EmailData :=
  { from_email := row.from_email, to_email := row.to_email,
    content := row.content, subject := row.subject, email_uuid := row.uuid,
    message_id := row.message_id, has_attachment := row.has_attachment,
    attachment_info := row.attachment_info }

/-- `process_email_by_uuid` (process_response.py lines 383-419): load the row
by uuid (`none` = discard with a warning), discard if already processed, then
resolve the SMTP config — by normalized recipient first, falling back to the
hard-coded default account, discarding only if both lookups miss. -/
def process_email_by_uuid (accounts : List (String × SmtpCfg))
    (db : List EmailRow) (u : String) : Option (EmailData × SmtpCfg) :=
  match db.find? (fun r => r.uuid == u) with
  | none => none
  | some row =>
      if row.is_processed ≠ 0 then none
      else
        match lookup_smtp accounts (normalize_addr row.to_email) with
        | some cfg => some (email_data_of_row row, cfg)
        | none =>
            match lookup_smtp accounts FALLBACK_SMTP_KEY with
            | some cfg => some (email_data_of_row row, cfg)
            | none => none

/-- The response dict of the completion service (process_response.py
lines 67-80 and the fields read at lines 472-497). -/
structure AiResponse where
  message_id : String
  response_text : String
  user_text : String
  emotion : String
  rag_docs : List String
  completion_id : String
  completion_tokens : Nat
  total_tokens : Nat
  prompt_tokens : Nat
  model : String
deriving DecidableEq

/-- `create_empty_response` (process_response.py lines 67-80); the uuid4 drawn
for `completion_id` is passed in as `fresh_completion_id`. -/
def create_empty_response (fresh_completion_id message_id : String) : AiResponse :=
  { message_id := message_id, response_text := "你说了什么么？我好像没看见",
    user_text := "", emotion := "", rag_docs := [],
    completion_id := fresh_completion_id, completion_tokens := 0,
    total_tokens := 0, prompt_tokens := 0, model := "" }

/-- The cleaned text (process_response.py lines 214-294): the cleaning stage
when enabled, then `.strip()`. -/
def processed_text_of (C : Config) (raw : String) : String :=
  str_trim (if C.enable_email_cleaning then C.clean raw else raw)

/-- The message id used for the cleaned-blank sentinel and the request
payload (process_response.py lines 296, 330): `message_id` if truthy, else
`email_` plus the `email_uuid` key, which is present in the dict.  Line 212
is different and is NOT modelled by this fallback — see `fetch_ai_reply`. -/
def fallback_message_id (ed : EmailData) : String :=
  if ed.message_id = "" then "email_" ++ ed.email_uuid else ed.message_id

/-- Outcome of the HTTP POST to the completion service, when one is made. -/
inductive HttpOutcome
  | transport_error
  | response (r : AiResponse)
deriving DecidableEq

/-- `fetch_ai_reply` (process_response.py lines 205-352).  First component:
whether an HTTP request was issued.  Second: `some` response, or `none` when
the call raised.  Empty stored content short-circuits at line 212 — but only
when `message_id` is truthy does it reach the canned response: Python `or`
otherwise evaluates the fallback f-string, whose `email_data["email_id"]`
subscript names a key absent from the dict built by `process_email_by_uuid`
(and by `process_email`), so the line raises `KeyError` before any HTTP
request (`(false, none)`; the caller treats it as a generic retryable
exception).  Content that is non-empty but blank after cleaning
short-circuits at line 296, whose fallback reads the present `email_uuid`
key and always yields the canned response. -/
def fetch_ai_reply (C : Config) (ed : EmailData) (fresh_completion_id : String)
    (http : HttpOutcome) : Bool × Option AiResponse :=
  if ed.content = "" then
    if ed.message_id = "" then (false, none)
    else (false, some (create_empty_response fresh_completion_id ed.message_id))
  else
    if processed_text_of C ed.content = "" then
      (false, some (create_empty_response fresh_completion_id (fallback_message_id ed)))
    else
      match http with
      | .transport_error => (true, none)
      | .response r => (true, some r)

/-- Outcome of the SMTP conversation of `send_auto_reply` for one attempt:
accepted, a connection/timeout error, or an authentication error
(process_response.py lines 507-511). -/
inductive SendResult
  | ok
  | conn_error
  | auth_error
deriving DecidableEq

/-- Outcomes of the external calls during one iteration of the retry loop. -/
structure AttemptEnv where
  http : HttpOutcome
  fresh_completion_id : String
  send : SendResult
  save_ok : Bool
deriving DecidableEq

/-- Externally visible actions of the consumer, in order of occurrence. -/
inductive Ev
  | http_call
  | send_reply
  | save_attempt
  | save_commit
  | cache_write
  | queue_push
deriving DecidableEq

structure ConsumerState where
  db : List EmailRow
  cache : Cache
deriving DecidableEq

/-- How one iteration of the retry loop ended: `success` returns,
`retryable` falls into the rollback-and-retry tail, `fatal` is the
`SMTPAuthenticationError` break. -/
inductive AttemptResult
  | success
  | retryable
  | fatal
deriving DecidableEq

/-- One iteration of the loop body of `process_with_retry_uuid`
(process_response.py lines 465-513): fetch the AI reply (a raised exception
is retryable), reject an empty `response_text` (retryable `ValueError`), send
the reply (connection errors retryable, auth errors fatal), then commit the
durable update and, only after it commits, write the replied cache.  A failed
commit rolls back (the table is unchanged) and is retryable. -/
def run_attempt (C : Config) (ed : EmailData) (env : AttemptEnv)
    (st : ConsumerState) : AttemptResult × ConsumerState × List Ev :=
  let f := fetch_ai_reply C ed env.fresh_completion_id env.http
  let evs0 : List Ev := if f.1 then [Ev.http_call] else []
  match f.2 with
  | none => (.retryable, st, evs0)
  | some data =>
      if data.response_text = "" then (.retryable, st, evs0)
      else
        match env.send with
        | .conn_error => (.retryable, st, evs0)
        | .auth_error => (.fatal, st, evs0)
        | .ok =>
            if env.save_ok then
              (.success,
               { db := apply_save st.db ed.email_uuid,
                 cache := add_to_replied_cache st.cache ed.email_uuid },
               evs0 ++ [Ev.send_reply, Ev.save_attempt, Ev.save_commit, Ev.cache_write])
            else
              (.retryable, st, evs0 ++ [Ev.send_reply, Ev.save_attempt])

/-- The retry loop (process_response.py lines 465-520): one environment per
iteration; success and the auth break return at once, a retryable failure
falls through to the next iteration, and an exhausted list is the
giving-up path after the final attempt. -/
inductive RunOutcome
  | succeeded
  | fatal_stop
  | abandoned
deriving DecidableEq

def process_loop (C : Config) (ed : EmailData) :
    List AttemptEnv → ConsumerState → RunOutcome × ConsumerState × List Ev
  | [], st => (.abandoned, st, [])
  | env :: rest, st =>
      match run_attempt C ed env st with
      | (.success, st2, evs) => (.succeeded, st2, evs)
      | (.fatal, st2, evs) => (.fatal_stop, st2, evs)
      | (.retryable, st2, evs) =>
          let next := process_loop C ed rest st2
          (next.1, next.2.1, evs ++ next.2.2)

/-- `process_with_retry_uuid` (process_response.py lines 461-520): at most
`MAX_RETRIES` iterations.  The smtp config is threaded for signature
fidelity; only the send outcome in the environment depends on it. -/
def process_with_retry_uuid (C : Config) (ed : EmailData) (_cfg : SmtpCfg)
    (envs : List AttemptEnv) (st : ConsumerState) :
    RunOutcome × ConsumerState × List Ev :=
  process_loop C ed (envs.take MAX_RETRIES) st

/-- One uuid-format task of `consume_tasks` (process_response.py
lines 611-624): replied-cache check, record/config resolution, then the
retry pipeline.  Returns the final state and the emitted events. -/
def consume_task_uuid (C : Config) (accounts : List (String × SmtpCfg))
    (envs : List AttemptEnv) (st : ConsumerState) (u : String) :
    ConsumerState × List Ev :=
  if is_already_replied st.cache u then (st, [])
  else
    match process_email_by_uuid accounts st.db u with
    | none => (st, [])
    | some (ed, cfg) =>
        let r := process_with_retry_uuid C ed cfg envs st
        (r.2.1, r.2.2)

/-! ### Trace ordering

`order_check ss sv evs` scans an event trace with two flags — whether the
relay has accepted a reply (`ss`) and whether the durable transition has
committed (`sv`) — and demands that every durable-update attempt come after a
relay acceptance and every cache write after a durable commit. -/

def order_check : Bool → Bool → List Ev → Bool
  | _, _, [] => true
  | _, sv, Ev.send_reply :: r => order_check true sv r
  | ss, sv, Ev.save_attempt :: r => ss && order_check ss sv r
  | ss, _, Ev.save_commit :: r => ss && order_check ss true r
  | ss, sv, Ev.cache_write :: r => sv && order_check ss sv r
  | ss, sv, Ev.http_call :: r => order_check ss sv r
  | ss, sv, Ev.queue_push :: r => order_check ss sv r

lemma order_check_mono (l : List Ev) :
    ∀ ss1 sv1 ss2 sv2 : Bool, (ss1 = true → ss2 = true) →
      (sv1 = true → sv2 = true) →
      order_check ss1 sv1 l = true → order_check ss2 sv2 l = true := by
  induction l with
  | nil => intro _ _ _ _ _ _ _; rfl
  | cons e r ih =>
      intro ss1 sv1 ss2 sv2 hss hsv h
      cases e <;> simp only [order_check, Bool.and_eq_true] at h ⊢
      case send_reply => exact ih true sv1 true sv2 (fun hx => hx) hsv h
      case save_attempt =>
        exact ⟨hss h.1, ih ss1 sv1 ss2 sv2 hss hsv h.2⟩
      case save_commit =>
        exact ⟨hss h.1, ih ss1 true ss2 true hss (fun hx => hx) h.2⟩
      case cache_write =>
        exact ⟨hsv h.1, ih ss1 sv1 ss2 sv2 hss hsv h.2⟩
      case http_call => exact ih ss1 sv1 ss2 sv2 hss hsv h
      case queue_push => exact ih ss1 sv1 ss2 sv2 hss hsv h

lemma order_check_append (l1 l2 : List Ev) :
    ∀ ss sv : Bool, order_check ss sv l1 = true →
      order_check false false l2 = true →
      order_check ss sv (l1 ++ l2) = true := by
  induction l1 with
  | nil =>
      intro ss sv _ h2
      exact order_check_mono l2 false false ss sv
        (fun hx => by simp at hx) (fun hx => by simp at hx) h2
  | cons e r ih =>
      intro ss sv h1 h2
      cases e <;>
        simp only [List.cons_append, order_check, Bool.and_eq_true] at h1 ⊢
      case send_reply => exact ih true sv h1 h2
      case save_attempt => exact ⟨h1.1, ih ss sv h1.2 h2⟩
      case save_commit => exact ⟨h1.1, ih ss true h1.2 h2⟩
      case cache_write => exact ⟨h1.1, ih ss sv h1.2 h2⟩
      case http_call => exact ih ss sv h1 h2
      case queue_push => exact ih ss sv h1 h2

lemma order_check_cache_mem (l : List Ev) :
    ∀ ss sv : Bool, order_check ss sv l = true → Ev.cache_write ∈ l →
      sv = true ∨ Ev.save_commit ∈ l := by
  induction l with
  | nil => intro _ _ _ hm; cases hm
  | cons e r ih =>
      intro ss sv h hm
      cases e <;> simp only [order_check, Bool.and_eq_true] at h
      case save_commit => exact Or.inr (List.mem_cons_self _ _)
      case cache_write => exact Or.inl h.1
      case send_reply =>
        rcases List.mem_cons.mp hm with hv | hr2
        · cases hv
        · rcases ih true sv h hr2 with hx | hx
          · exact Or.inl hx
          · exact Or.inr (List.mem_cons_of_mem _ hx)
      case save_attempt =>
        rcases List.mem_cons.mp hm with hv | hr2
        · cases hv
        · rcases ih ss sv h.2 hr2 with hx | hx
          · exact Or.inl hx
          · exact Or.inr (List.mem_cons_of_mem _ hx)
      case http_call =>
        rcases List.mem_cons.mp hm with hv | hr2
        · cases hv
        · rcases ih ss sv h hr2 with hx | hx
          · exact Or.inl hx
          · exact Or.inr (List.mem_cons_of_mem _ hx)
      case queue_push =>
        rcases List.mem_cons.mp hm with hv | hr2
        · cases hv
        · rcases ih ss sv h hr2 with hx | hx
          · exact Or.inl hx
          · exact Or.inr (List.mem_cons_of_mem _ hx)

lemma run_attempt_order (C : Config) (ed : EmailData) (env : AttemptEnv)
    (st : ConsumerState) :
    order_check false false (run_attempt C ed env st).2.2 = true := by
  unfold run_attempt
  cases hf : fetch_ai_reply C ed env.fresh_completion_id env.http with
  | mk b o =>
      cases o with
      | none => cases b <;> simp [hf, order_check]
      | some data =>
          by_cases hr : data.response_text = ""
          · cases b <;> simp [hf, hr, order_check]
          · cases hs : env.send
            · cases hk : env.save_ok <;> cases b <;>
                simp [hf, hr, hs, hk, order_check]
            · cases b <;> simp [hf, hr, hs, order_check]
            · cases b <;> simp [hf, hr, hs, order_check]

lemma process_loop_order (C : Config) (ed : EmailData) :
    ∀ (envs : List AttemptEnv) (st : ConsumerState),
      order_check false false (process_loop C ed envs st).2.2 = true := by
  intro envs
  induction envs with
  | nil => intro st; rfl
  | cons env rest ih =>
      intro st
      have h1 := run_attempt_order C ed env st
      unfold process_loop
      rcases hr : run_attempt C ed env st with ⟨res, st2, evs⟩
      rw [hr] at h1
      cases res
      case success => simpa using h1
      case fatal => simpa using h1
      case retryable =>
        simp only []
        exact order_check_append evs _ false false h1 (ih st2)

/-- C4: in every trace of the per-task retry pipeline, a durable-update
attempt happens only after the mail relay has accepted the reply, a
dedup-cache write happens only after the durable transition commits, and a
trace containing a cache write contains a durable commit — the cache is never
written for a task whose durable transition did not commit. -/
theorem commit_order_respected (C : Config) (ed : EmailData) (cfg : SmtpCfg)
    (envs : List AttemptEnv) (st : ConsumerState) :
    order_check false false (process_with_retry_uuid C ed cfg envs st).2.2 = true ∧
    (Ev.cache_write ∈ (process_with_retry_uuid C ed cfg envs st).2.2 →
      Ev.save_commit ∈ (process_with_retry_uuid C ed cfg envs st).2.2) := by
  have h := process_loop_order C ed (envs.take MAX_RETRIES) st
  refine ⟨h, fun hc => ?_⟩
  rcases order_check_cache_mem _ false false h hc with hx | hx
  · exact absurd hx (by simp)
  · exact hx

lemma run_attempt_stays (C : Config) (ed : EmailData) (env : AttemptEnv)
    (st : ConsumerState) (h : (run_attempt C ed env st).1 ≠ AttemptResult.success) :
    (run_attempt C ed env st).2.1 = st ∧
    Ev.save_commit ∉ (run_attempt C ed env st).2.2 ∧
    Ev.cache_write ∉ (run_attempt C ed env st).2.2 := by
  unfold run_attempt at h ⊢
  cases hf : fetch_ai_reply C ed env.fresh_completion_id env.http with
  | mk b o =>
      cases o with
      | none => cases b <;> simp [hf]
      | some data =>
          by_cases hr : data.response_text = ""
          · cases b <;> simp [hf, hr]
          · cases hs : env.send
            · cases hk : env.save_ok
              · cases b <;> simp [hf, hr, hs, hk]
              · simp [hf, hr, hs, hk] at h
            · cases b <;> simp [hf, hr, hs]
            · cases b <;> simp [hf, hr, hs]

lemma run_attempt_no_queue (C : Config) (ed : EmailData) (env : AttemptEnv)
    (st : ConsumerState) :
    Ev.queue_push ∉ (run_attempt C ed env st).2.2 := by
  unfold run_attempt
  cases hf : fetch_ai_reply C ed env.fresh_completion_id env.http with
  | mk b o =>
      cases o with
      | none => cases b <;> simp [hf]
      | some data =>
          by_cases hr : data.response_text = ""
          · cases b <;> simp [hf, hr]
          · cases hs : env.send
            · cases hk : env.save_ok <;> cases b <;> simp [hf, hr, hs, hk]
            · cases b <;> simp [hf, hr, hs]
            · cases b <;> simp [hf, hr, hs]

lemma process_loop_retryable_step (C : Config) (ed : EmailData)
    (env : AttemptEnv) (rest : List AttemptEnv) (st : ConsumerState)
    (h : (run_attempt C ed env st).1 = AttemptResult.retryable) :
    process_loop C ed (env :: rest) st =
      ((process_loop C ed rest st).1, (process_loop C ed rest st).2.1,
        (run_attempt C ed env st).2.2 ++ (process_loop C ed rest st).2.2) := by
  obtain ⟨hst, -, -⟩ := run_attempt_stays C ed env st (by simp [h])
  simp only [process_loop]
  rcases hr : run_attempt C ed env st with ⟨res, st2, evs⟩
  rw [hr] at h hst
  have hres : res = AttemptResult.retryable := h
  have hst2 : st2 = st := hst
  subst hres hst2
  rfl

lemma process_loop_fatal_step (C : Config) (ed : EmailData)
    (env : AttemptEnv) (rest : List AttemptEnv) (st : ConsumerState)
    (h : (run_attempt C ed env st).1 = AttemptResult.fatal) :
    process_loop C ed (env :: rest) st =
      (RunOutcome.fatal_stop, st, (run_attempt C ed env st).2.2) := by
  obtain ⟨hst, -, -⟩ := run_attempt_stays C ed env st (by simp [h])
  simp only [process_loop]
  rcases hr : run_attempt C ed env st with ⟨res, st2, evs⟩
  rw [hr] at h hst
  have hres : res = AttemptResult.fatal := h
  have hst2 : st2 = st := hst
  subst hres hst2
  rfl

/-- C5: when each of the three configured attempts ends in a retryable
failure, the governor gives up: the outcome is Abandoned, the table and
cache are untouched (the record keeps `is_processed = 0`), no durable commit
and no dedup-cache write appear in the trace, and the consumer pushes
nothing back onto the queue. -/
theorem retry_exhaustion_abandons (C : Config) (ed : EmailData)
    (cfg : SmtpCfg) (e1 e2 e3 : AttemptEnv) (st : ConsumerState)
    (h1 : (run_attempt C ed e1 st).1 = AttemptResult.retryable)
    (h2 : (run_attempt C ed e2 st).1 = AttemptResult.retryable)
    (h3 : (run_attempt C ed e3 st).1 = AttemptResult.retryable) :
    (process_with_retry_uuid C ed cfg [e1, e2, e3] st).1 = RunOutcome.abandoned ∧
    (process_with_retry_uuid C ed cfg [e1, e2, e3] st).2.1 = st ∧
    Ev.save_commit ∉ (process_with_retry_uuid C ed cfg [e1, e2, e3] st).2.2 ∧
    Ev.cache_write ∉ (process_with_retry_uuid C ed cfg [e1, e2, e3] st).2.2 ∧
    Ev.queue_push ∉ (process_with_retry_uuid C ed cfg [e1, e2, e3] st).2.2 := by
  obtain ⟨-, hnc1, hnw1⟩ := run_attempt_stays C ed e1 st (by simp [h1])
  obtain ⟨-, hnc2, hnw2⟩ := run_attempt_stays C ed e2 st (by simp [h2])
  obtain ⟨-, hnc3, hnw3⟩ := run_attempt_stays C ed e3 st (by simp [h3])
  have hq1 := run_attempt_no_queue C ed e1 st
  have hq2 := run_attempt_no_queue C ed e2 st
  have hq3 := run_attempt_no_queue C ed e3 st
  have hfinal : process_with_retry_uuid C ed cfg [e1, e2, e3] st =
      (RunOutcome.abandoned, st,
        (run_attempt C ed e1 st).2.2 ++ ((run_attempt C ed e2 st).2.2 ++
          ((run_attempt C ed e3 st).2.2 ++ ([] : List Ev)))) := by
    show process_loop C ed (List.take MAX_RETRIES [e1, e2, e3]) st = _
    have htake : List.take MAX_RETRIES [e1, e2, e3] = [e1, e2, e3] := rfl
    rw [htake, process_loop_retryable_step C ed e1 [e2, e3] st h1,
      process_loop_retryable_step C ed e2 [e3] st h2,
      process_loop_retryable_step C ed e3 [] st h3]
    rfl
  rw [hfinal]
  refine ⟨rfl, rfl, ?_, ?_, ?_⟩ <;>
    simp [List.mem_append, hnc1, hnc2, hnc3, hnw1, hnw2, hnw3, hq1, hq2, hq3]

/-- C6: an attempt that reaches the relay with a usable completion response
and hits an SMTP authentication failure is fatal: when this happens on the
first attempt the whole pipeline stops after exactly that one attempt (its
trace is the entire trace of the run, the remaining attempt budget is unused) and
the state — in particular the Pending status of the record — is unchanged. -/
theorem auth_failure_single_attempt (C : Config) (ed : EmailData)
    (cfg : SmtpCfg) (e1 : AttemptEnv) (rest : List AttemptEnv)
    (st : ConsumerState) (data : AiResponse)
    (hf : (fetch_ai_reply C ed e1.fresh_completion_id e1.http).2 = some data)
    (hr : data.response_text ≠ "")
    (ha : e1.send = SendResult.auth_error) :
    (run_attempt C ed e1 st).1 = AttemptResult.fatal ∧
    process_with_retry_uuid C ed cfg (e1 :: rest) st =
      (RunOutcome.fatal_stop, st, (run_attempt C ed e1 st).2.2) := by
  have hfat : (run_attempt C ed e1 st).1 = AttemptResult.fatal := by
    unfold run_attempt
    simp [hf, hr, ha]
  refine ⟨hfat, ?_⟩
  show process_loop C ed ((e1 :: rest).take MAX_RETRIES) st = _
  have htake : (e1 :: rest).take MAX_RETRIES = e1 :: rest.take 2 := rfl
  rw [htake, process_loop_fatal_step C ed e1 (rest.take 2) st hfat]

/-- C10 amended: an email whose stored content is empty *and whose
message_id is truthy*, or whose content is non-empty but blank after
quoted-reply cleaning, triggers no HTTP request to the completion service:
`fetch_ai_reply` returns the locally built canned response whose
`response_text` is the fixed non-empty string, and — with the relay
accepting and the commit succeeding — the task succeeds in one attempt, a
reply is sent, and the record ends marked Processed.  (Empty content with a
falsy message_id instead raises at line 212 on the absent `email_id` key;
see the counterexample.) -/
theorem blank_content_canned_reply (C : Config) (ed : EmailData)
    (cfg : SmtpCfg) (env : AttemptEnv) (st : ConsumerState)
    (hblank : (ed.content = "" ∧ ed.message_id ≠ "") ∨
      (ed.content ≠ "" ∧ processed_text_of C ed.content = ""))
    (hsend : env.send = SendResult.ok)
    (hsave : env.save_ok = true) :
    (fetch_ai_reply C ed env.fresh_completion_id env.http).1 = false ∧
    (fetch_ai_reply C ed env.fresh_completion_id env.http).2 =
      some (create_empty_response env.fresh_completion_id (fallback_message_id ed)) ∧
    (create_empty_response env.fresh_completion_id (fallback_message_id ed)).response_text =
      "你说了什么么？我好像没看见" ∧
    ("你说了什么么？我好像没看见" : String) ≠ "" ∧
    process_with_retry_uuid C ed cfg [env] st =
      (RunOutcome.succeeded,
       { db := apply_save st.db ed.email_uuid,
         cache := add_to_replied_cache st.cache ed.email_uuid },
       [Ev.send_reply, Ev.save_attempt, Ev.save_commit, Ev.cache_write]) ∧
    (∀ q ∈ apply_save st.db ed.email_uuid, q.uuid = ed.email_uuid →
      q.is_processed = 1) := by
  have hne : ("你说了什么么？我好像没看见" : String) ≠ "" := by decide
  have hfetch : fetch_ai_reply C ed env.fresh_completion_id env.http =
      (false, some (create_empty_response env.fresh_completion_id
        (fallback_message_id ed))) := by
    rcases hblank with ⟨hb, hm⟩ | ⟨hc, hb⟩
    · simp [fetch_ai_reply, hb, hm, fallback_message_id]
    · simp [fetch_ai_reply, hc, hb]
  have hrun : run_attempt C ed env st =
      (AttemptResult.success,
       { db := apply_save st.db ed.email_uuid,
         cache := add_to_replied_cache st.cache ed.email_uuid },
       [Ev.send_reply, Ev.save_attempt, Ev.save_commit, Ev.cache_write]) := by
    unfold run_attempt
    simp [hfetch, create_empty_response, hne, hsend, hsave]
  refine ⟨by rw [hfetch], by rw [hfetch], rfl, hne, ?_,
    apply_save_marks st.db ed.email_uuid⟩
  show process_loop C ed (List.take MAX_RETRIES [env]) st = _
  have htake : List.take MAX_RETRIES [env] = [env] := rfl
  rw [htake]
  unfold process_loop
  rw [hrun]

/-! ### Concrete fixtures for the consumer claims -/

def wC : Config := { enable_email_cleaning := false, clean := fun s => s }

def wEd : EmailData :=
  { from_email := "a@x.com", to_email := "me@y.com", content := "",
    subject := "s", email_uuid := "u1", message_id := "m1",
    has_attachment := false, attachment_info := none }

def wCfg : SmtpCfg :=
  { smtp_host := "mail.spacemail.com", smtp_port := 465,
    smtp_user := "jesse", smtp_pass := "pw" }

def wSt : ConsumerState := { db := [pendingRow], cache := ⟨[], []⟩ }

def wEnvOk : AttemptEnv :=
  { http := HttpOutcome.transport_error, fresh_completion_id := "cid",
    send := SendResult.ok, save_ok := true }

def wEnvConn : AttemptEnv :=
  { http := HttpOutcome.transport_error, fresh_completion_id := "cid",
    send := SendResult.conn_error, save_ok := true }

def wEnvAuth : AttemptEnv :=
  { http := HttpOutcome.transport_error, fresh_completion_id := "cid",
    send := SendResult.auth_error, save_ok := true }

/-- A run in which the cache is concretely written contains the durable
commit. -/
theorem commit_order_respected_witness :
    Ev.save_commit ∈ (process_with_retry_uuid wC wEd wCfg [wEnvOk] wSt).2.2 :=
  (commit_order_respected wC wEd wCfg [wEnvOk] wSt).2 (by decide)

/-- Three concrete connection failures exhaust the attempt budget and
abandon the task. -/
theorem retry_exhaustion_abandons_witness :
    (process_with_retry_uuid wC wEd wCfg [wEnvConn, wEnvConn, wEnvConn] wSt).1 =
      RunOutcome.abandoned :=
  (retry_exhaustion_abandons wC wEd wCfg wEnvConn wEnvConn wEnvConn wSt
    (by decide) (by decide) (by decide)).1

/-- A concrete SMTP authentication failure makes the first attempt fatal. -/
theorem auth_failure_single_attempt_witness :
    (run_attempt wC wEd wEnvAuth wSt).1 = AttemptResult.fatal :=
  (auth_failure_single_attempt wC wEd wCfg wEnvAuth [] wSt
    (create_empty_response "cid" "m1") (by decide) (by decide) rfl).1

/-- A concrete empty-content task with a truthy message id succeeds in one
attempt on the canned response. -/
theorem blank_content_canned_reply_witness :
    process_with_retry_uuid wC wEd wCfg [wEnvOk] wSt =
      (RunOutcome.succeeded,
       { db := apply_save wSt.db wEd.email_uuid,
         cache := add_to_replied_cache wSt.cache wEd.email_uuid },
       [Ev.send_reply, Ev.save_attempt, Ev.save_commit, Ev.cache_write]) :=
  (blank_content_canned_reply wC wEd wCfg wEnvOk wSt
    (Or.inl ⟨rfl, by decide⟩) rfl rfl).2.2.2.2.1

/-- An email row whose stored content is empty and whose message_id is also
empty (falsy in Python). -/
def c10ed : EmailData :=
  { from_email := "a@x.com", to_email := "me@y.com", content := "",
    subject := "s", email_uuid := "u1", message_id := "",
    has_attachment := false, attachment_info := none }

/-- C10 fails on the code as stated: for an email with empty stored content
and a falsy message_id, line 212 evaluates the fallback f-string and raises
`KeyError` on the absent `email_id` key, so `fetch_ai_reply` yields no
canned response (it raises before any HTTP request), and even with the relay
and the commit healthy on every attempt the task is retried, abandoned, the
state is unchanged (the record stays Pending, never Processed) and no reply
is ever sent. -/
theorem blank_content_keyerror_cex :
    (fetch_ai_reply wC c10ed "cid" HttpOutcome.transport_error).2 = none ∧
    (process_with_retry_uuid wC c10ed wCfg [wEnvOk, wEnvOk, wEnvOk] wSt).1 =
      RunOutcome.abandoned ∧
    (process_with_retry_uuid wC c10ed wCfg [wEnvOk, wEnvOk, wEnvOk] wSt).2.1 =
      wSt ∧
    Ev.send_reply ∉
      (process_with_retry_uuid wC c10ed wCfg [wEnvOk, wEnvOk, wEnvOk] wSt).2.2 := by
  decide

/-! ### C3: SMTP-config resolution -/

def fb_cfg : SmtpCfg :=
  { smtp_host := "mail.spacemail.com", smtp_port := 465,
    smtp_user := "jesse0526@officalbusiness.com", smtp_pass := "pw" }

def c3accounts : List (String × SmtpCfg) := [(FALLBACK_SMTP_KEY, fb_cfg)]

def c3row : EmailRow :=
  { uuid := "u1", message_id := "m1", sender_uuid := "s0",
    from_email := "bob@x.com", to_email := "alice@y.com", subject := "s",
    content := "", is_processed := 0, has_attachment := false,
    attachment_info := none }

/-- C3 fails on the code: a record whose normalized recipient address has no
configured SMTP credentials is not discarded — `process_email_by_uuid` falls
back to the hard-coded default account, and the task goes on to send a
reply. -/
theorem smtp_fallback_cex :
    lookup_smtp c3accounts (normalize_addr c3row.to_email) = none ∧
    (process_email_by_uuid c3accounts [c3row] "u1").isSome = true ∧
    Ev.send_reply ∈
      (consume_task_uuid wC c3accounts [wEnvOk] ⟨[c3row], ⟨[], []⟩⟩ "u1").2 := by
  decide

/-- C3 amended: only when neither the normalized recipient address nor the
hard-coded fallback address has configured SMTP credentials does the consumer
discard the task — `process_email_by_uuid` returns nothing and the task ends
with no state change and no emitted action (no retry, no reply). -/
theorem no_smtp_config_discards (C : Config)
    (accounts : List (String × SmtpCfg)) (envs : List AttemptEnv)
    (st : ConsumerState) (u : String) (row : EmailRow)
    (hfind : st.db.find? (fun r => r.uuid == u) = some row)
    (h0 : row.is_processed = 0)
    (h1 : lookup_smtp accounts (normalize_addr row.to_email) = none)
    (h2 : lookup_smtp accounts FALLBACK_SMTP_KEY = none)
    (hc : is_already_replied st.cache u = false) :
    process_email_by_uuid accounts st.db u = none ∧
    consume_task_uuid C accounts envs st u = (st, []) := by
  have hp : process_email_by_uuid accounts st.db u = none := by
    unfold process_email_by_uuid
    rw [hfind]
    simp [h0, h1, h2]
  exact ⟨hp, by unfold consume_task_uuid; simp [hc, hp]⟩

/-- With an empty account map a concrete Pending task is discarded without
any action. -/
theorem no_smtp_config_discards_witness :
    consume_task_uuid wC [] [wEnvOk] ⟨[c3row], ⟨[], []⟩⟩ "u1" =
      (⟨[c3row], ⟨[], []⟩⟩, []) :=
  (no_smtp_config_discards wC [] [wEnvOk] ⟨[c3row], ⟨[], []⟩⟩ "u1" c3row
    (by decide) rfl rfl rfl rfl).2

end EmailBot
